import Mathlib

/-!
# Verification of the pharmacy-lookup Cloud Function

Shallow embedding of the three JavaScript source files of the repository:

* `src/pharmacy-backend-function/index.js` — handler with parameter
  validation and structured upstream-error translation (modelled as
  `getPharmacyData`);
* `src/unnamed/part_000` — variant that substitutes default parameter
  values instead of validating, builds its URL with `URLSearchParams`,
  and returns a single generic 500 on every failure (modelled as
  `getPharmacyData_v0`);
* `src/unnamed/part_001` — variant equal to `index.js` plus the
  `dayMap` weekday translation (modelled as `getPharmacyData_v1`).

XML bodies parsed by `xml2js` with `explicitArray: false` are modelled
by the value type `JVal` (a leaf element is a string, an element with
children an object, repeated children an array).  JavaScript truthiness,
optional chaining and the `||` fallback are modelled explicitly.
The upstream interaction (`axios.get`) is a parameter of each handler:
an `AxiosOutcome` records whether the call resolved, and the outcome of
every `parseStringPromise` application the handler would perform on the
received bodies.
-/

/-- JSON-like values as produced by `xml2js` (`explicitArray: false`):
leaf elements parse to strings, elements with children to objects,
repeated children to arrays. -/
inductive JVal where
  | str (s : String)
  | obj (fields : List (String × JVal))
  | arr (elems : List JVal)


/-- JavaScript truthiness of a defined `JVal`: every object and every
array is truthy (including `[]`), a string is truthy iff nonempty. -/
def JVal.truthy : JVal → Bool
  | .str s => !s.isEmpty
  | .obj _ => true
  | .arr _ => true

/-- `Array.isArray`. -/
def JVal.isArray : JVal → Bool
  | .arr _ => true
  | _ => false

/-- JavaScript property access `v?.k` on a defined value: named lookup
on an object (first binding wins, as in a parsed XML node), `undefined`
(`none`) on strings and arrays, which have no such named element. -/
def JVal.get? (v : JVal) (k : String) : Option JVal :=
  match v with
  | .obj fields => fields.lookup k
  | _ => none

/-- Optional-chaining step `o?.k`: `undefined` propagates. -/
def jchain (o : Option JVal) (k : String) : Option JVal :=
  o.bind (fun v => v.get? k)

/-- Truthiness of a possibly-`undefined` JavaScript value
(`undefined` is falsy). -/
def jtruthy (o : Option JVal) : Bool :=
  match o with
  | some v => v.truthy
  | none => false

/-- Truthiness of a possibly-`undefined` JavaScript string
(query parameters, environment values): `undefined` and `""` are falsy. -/
def struthy (o : Option String) : Bool :=
  match o with
  | some s => !s.isEmpty
  | none => false

/-- JavaScript string coercion as used in template literals:
a string interpolates verbatim, an object as `[object Object]`,
an array as its comma-joined elements (`Array.prototype.toString`). -/
def JVal.jsToString : JVal → String
  | .str s => s
  | .obj _ => "[object Object]"
  | .arr elems => String.intercalate "," (elems.attach.map (fun e => e.val.jsToString))
termination_by v => sizeOf v
decreasing_by
  have h := List.sizeOf_lt_of_mem e.property
  simp only [JVal.arr.sizeOf_spec]
  omega

/-- `jsonData?.response?.body?.items?.item`
(`index.js` line 58, `part_000` line 62, `part_001` line 75). -/
def extractItems (jsonData : JVal) : Option JVal :=
  jchain (jchain (jchain (jchain (some jsonData) "response") "body") "items") "item"

/-- `errorJson?.response?.header?.resultMsg`
(`index.js` line 75, `part_001` line 98). -/
def extractResultMsg (errorJson : JVal) : Option JVal :=
  jchain (jchain (jchain (some errorJson) "response") "header") "resultMsg"

/-- `Array.isArray(items) ? items : [items]` — the single-or-array
normalization applied to a truthy `items` value
(`index.js` line 62, `part_000` line 68, `part_001` line 79). -/
def toPharmacyList (items : JVal) : List JVal :=
  match items with
  | .arr elems => elems
  | single => [single]

/-- The full success-path normalization of `index.js` lines 58–66:
extract the `item` path, return the normalized list when truthy,
the empty list when absent or falsy. -/
def normalizeItems (jsonData : JVal) : List JVal :=
  match extractItems jsonData with
  | some items => if items.truthy then toPharmacyList items else []
  | none => []

/-- The error object attached to a rejected `axios.get` when the
upstream answered with a non-2xx status (`error.response`).
`dataPresent` is the truthiness of `error.response.data`; `dataParse`
is the outcome of `parseStringPromise(error.response.data)`
(`none` = the promise rejects). -/
structure ErrResp where
  status : Nat
  dataPresent : Bool
  dataParse : Option JVal


/-- The outcome of the single `axios.get`:
`success p` — the request resolved and `parseStringPromise` of the body
yielded `p` (`none` = parse rejection, caught by the outer `catch` with
no `error.response` attached);
`failure r` — the request rejected, with `error.response` equal to `r`
(`none` = pure network error without a response). -/
inductive AxiosOutcome where
  | success (parseResult : Option JVal)
  | failure (response : Option ErrResp)


/-- A client-facing HTTP response: the status passed to `res.status`
and the JSON body passed to `.json(...)`. -/
structure HttpResponse where
  status : Nat
  body : JVal


/-- Result of one invocation: the response sent and whether the
outbound `axios.get` was reached. -/
structure HandlerResult where
  resp : HttpResponse
  calledUpstream : Bool


/-- `{ message: m }` error body. -/
def msgBody (m : String) : JVal :=
  .obj [("message", .str m)]

/-- The `message` field of a response body, when it is an object
carrying one. -/
def messageOf (r : HttpResponse) : Option JVal :=
  r.body.get? "message"

/-- The upstream-error translation shared by `index.js` lines 68–85 and
`part_001` lines 85–109 (identical apart from extra logging and the
wording `malformedMsg` of the inner-parse-failure message): parse the
attached error body when present, forward the upstream status with the
extracted `resultMsg` behind the fixed `API 응답 오류: ` prefix, fall
back to 500 responses otherwise. -/
def translateError (malformedMsg : String) (response : Option ErrResp) : HttpResponse :=
  match response with
  | some er =>
    if er.dataPresent then
      match er.dataParse with
      | some errorJson =>
        let errorMessage : JVal :=
          match extractResultMsg errorJson with
          | some v => if v.truthy then v else .str "알 수 없는 API 응답 오류"
          | none => .str "알 수 없는 API 응답 오류"
        ⟨er.status, msgBody ("API 응답 오류: " ++ errorMessage.jsToString)⟩
      | none => ⟨500, msgBody malformedMsg⟩
    else ⟨500, msgBody "데이터를 불러오는 데 실패했습니다."⟩
  | none => ⟨500, msgBody "데이터를 불러오는 데 실패했습니다."⟩

/-- The handler of `src/pharmacy-backend-function/index.js`:
credential check, required-parameter check, single upstream call,
success-path normalization, error translation. -/
def getPharmacyData (serviceKey Q0 Q1 DG : Option String)
    (upstream : AxiosOutcome) : HandlerResult :=
  if !struthy serviceKey then
    ⟨⟨500, msgBody "서버 설정 오류: API 키가 누락되었습니다."⟩, false⟩
  else if !struthy Q0 || !struthy Q1 || !struthy DG then
    ⟨⟨400, msgBody "필수 검색 조건(시/도, 시/군/구, 요일)이 누락되었습니다."⟩, false⟩
  else
    match upstream with
    | .success parseResult =>
      match parseResult with
      | some jsonData => ⟨⟨200, .arr (normalizeItems jsonData)⟩, true⟩
      | none => ⟨⟨500, msgBody "데이터를 불러오는 데 실패했습니다."⟩, true⟩
    | .failure response =>
      ⟨translateError "데이터 처리 중 오류 발생: 잘못된 API 응답 형식" response, true⟩

/-! ## The `part_000` variant -/

/-- JavaScript `o || d` on a possibly-`undefined` string: the string
itself when truthy, the default otherwise (`part_000` lines 28–30). -/
def jsOr (o : Option String) (d : String) : String :=
  match o with
  | some s => if s.isEmpty then d else s
  | none => d

/-- Hexadecimal digit (uppercase, as produced by `URLSearchParams`). -/
def toHexDigit (n : Nat) : Char :=
  if n < 10 then Char.ofNat (48 + n) else Char.ofNat (55 + n)

/-- UTF-8 encoding of a single character as a byte list. -/
def utf8Bytes (c : Char) : List Nat :=
  let n := c.toNat
  if n < 0x80 then [n]
  else if n < 0x800 then
    [0xC0 + n / 0x40, 0x80 + n % 0x40]
  else if n < 0x10000 then
    [0xE0 + n / 0x1000, 0x80 + n / 0x40 % 0x40, 0x80 + n % 0x40]
  else
    [0xF0 + n / 0x40000, 0x80 + n / 0x1000 % 0x40, 0x80 + n / 0x40 % 0x40,
     0x80 + n % 0x40]

/-- `application/x-www-form-urlencoded` encoding of one character, as
applied by `URLSearchParams.toString()`: ASCII alphanumerics and
`* - . _` pass through, space becomes `+`, everything else is
percent-encoded bytewise in UTF-8. -/
def formEncodeChar (c : Char) : String :=
  if c.isAlphanum then String.singleton c
  else if c = '*' || c = '-' || c = '.' || c = '_' then String.singleton c
  else if c = ' ' then "+"
  else String.join ((utf8Bytes c).map
    (fun b => "%" ++ String.singleton (toHexDigit (b / 16)) ++
      String.singleton (toHexDigit (b % 16))))

/-- `application/x-www-form-urlencoded` encoding of a string. -/
def formEncode (s : String) : String :=
  String.join (s.data.map formEncodeChar)

/-- The outbound URL built by `part_000` lines 23–43:
`URLSearchParams({serviceKey, Q0, Q1, DG}).toString()` appended to the
fixed base endpoint, in insertion order. -/
def apiUrl_v0 (serviceKey q0 q1 dg : String) : String :=
  "http://apis.data.go.kr/B552657/ErmctInsttInfoInqireService/getParmacyListInfoInqire" ++
    "?serviceKey=" ++ formEncode serviceKey ++
    "&Q0=" ++ formEncode q0 ++ "&Q1=" ++ formEncode q1 ++ "&DG=" ++ formEncode dg

/-- The `console.log` line emitted by `part_000` line 44 for every
request that passes the credential check, interpolating the full
outbound URL. -/
def callingApiLog_v0 (serviceKey q0 q1 dg : String) : String :=
  "Calling API: " ++ apiUrl_v0 serviceKey q0 q1 dg

/-- The log lines `part_000` emits before (and independently of) the
upstream call: the missing-key error (line 18) when the credential is
falsy, otherwise the `Calling API` line (line 44) with the resolved
parameter values (lines 28–30). -/
def logsBeforeCall_v0 (serviceKey Q0 Q1 DG : Option String) : List String :=
  if !struthy serviceKey then
    ["API Key is not set in environment variables."]
  else
    [callingApiLog_v0 (serviceKey.getD "")
      (jsOr Q0 "서울특별시") (jsOr Q1 "강남구") (jsOr DG "월")]

/-- The outcome of `part_000`'s `axios.get` / parse sequence:
`success (.ok j)` — request and parse both succeeded with tree `j`;
`success (.error m)` — the request resolved but `parseStringPromise`
rejected with message `m`;
`failure m r` — the request rejected with `error.message = m` and
`error.response` equal to `r` (upstream status and raw body), `none`
for a pure network error. -/
inductive AxiosOutcome0 where
  | success (parseResult : Except String JVal)
  | failure (message : String) (response : Option (Nat × String))

/-- Result of one `part_000` invocation: the response, whether
`axios.get` was reached, and the URL it was given. -/
structure HandlerResult0 where
  resp : HttpResponse
  calledUpstream : Bool
  outboundUrl : Option String

/-- The handler of `src/unnamed/part_000`: credential check, default
substitution for the three query parameters (no validation), upstream
call via `URLSearchParams`-built URL, success-path normalization, and a
single generic 500 `{message, error, detail}` body on every failure
(lines 75–88). -/
def getPharmacyData_v0 (serviceKey Q0 Q1 DG : Option String)
    (upstream : AxiosOutcome0) : HandlerResult0 :=
  if !struthy serviceKey then
    ⟨⟨500, msgBody "서버 설정 오류: API 키가 누락되었습니다."⟩, false, none⟩
  else
    let q0 := jsOr Q0 "서울특별시"
    let q1 := jsOr Q1 "강남구"
    let dg := jsOr DG "월"
    let url := apiUrl_v0 (serviceKey.getD "") q0 q1 dg
    match upstream with
    | .success (.ok jsonData) =>
      ⟨⟨200, .arr (normalizeItems jsonData)⟩, true, some url⟩
    | .success (.error m) =>
      ⟨⟨500, .obj [("message", .str "데이터를 불러오는 데 실패했습니다."),
        ("error", .str m),
        ("detail", .str "No response data from external API")]⟩, true, some url⟩
    | .failure m response =>
      let errorDetail : JVal :=
        match response with
        | some (_, data) => .str data
        | none => .str "No response data from external API"
      ⟨⟨500, .obj [("message", .str "데이터를 불러오는 데 실패했습니다."),
        ("error", .str m), ("detail", errorDetail)]⟩, true, some url⟩

/-! ## The `part_001` variant -/

/-- The fixed weekday mapping table of `part_001` lines 35–44:
seven weekday labels plus the holiday designator, each to a numeric
code string. -/
def dayMap : List (String × String) :=
  [("월", "1"), ("화", "2"), ("수", "3"), ("목", "4"),
   ("금", "5"), ("토", "6"), ("일", "7"), ("공휴일", "8")]

/-- A value JavaScript bracket access can produce on the `dayMap`
object literal: one of its own entries (a string), or a property
inherited from `Object.prototype` (a function, or for `__proto__` the
prototype object itself) — always truthy, and interpolating into a
template literal as its string form. -/
inductive JsProp where
  | own (code : String)
  | inherited (stringForm : String)

/-- The string-keyed properties of `Object.prototype` that an object
literal inherits (Node.js). -/
def protoProps : List String :=
  ["constructor", "hasOwnProperty", "isPrototypeOf", "propertyIsEnumerable",
   "toLocaleString", "toString", "valueOf", "__proto__",
   "__defineGetter__", "__defineSetter__", "__lookupGetter__", "__lookupSetter__"]

/-- The template-literal string form of the inherited property named
`p`: `dayMap.__proto__` is `Object.prototype` and prints as
`[object Object]`, `dayMap.constructor` is the `Object` function, and
every other inherited property is the built-in function of that name
(V8 prints built-ins in `[native code]` form). -/
def protoPropString (p : String) : String :=
  if p == "constructor" then "function Object() { [native code] }"
  else if p == "__proto__" then "[object Object]"
  else "function " ++ p ++ "() { [native code] }"

/-- The JavaScript bracket access `dayMap[DG]` (`part_001` line 47):
own entries are consulted first, then the prototype chain — a `DG`
naming an `Object.prototype` property yields that inherited (truthy)
value, and only otherwise is the result `undefined`. -/
def dayMapAccess (dg : String) : Option JsProp :=
  match dayMap.lookup dg with
  | some code => some (.own code)
  | none =>
    if protoProps.contains dg then some (.inherited (protoPropString dg))
    else none

/-- `DG = dayMap[DG] || DG` (`part_001` line 47): the accessed property
when truthy (an own code when nonempty, any inherited function/object),
the original value otherwise.  The handler then interpolates the result
into the outbound URL, so an inherited hit contributes its string
form. -/
def mapDG (dg : String) : String :=
  match dayMapAccess dg with
  | some (.own code) => if code.isEmpty then dg else code
  | some (.inherited stringForm) => stringForm
  | none => dg

/-- Result of one `part_001` invocation: the response, whether
`axios.get` was reached, and the `DG` value interpolated into the
outbound URL. -/
structure HandlerResult1 where
  resp : HttpResponse
  calledUpstream : Bool
  outboundDG : Option String

/-- The handler of `src/unnamed/part_001`: identical to `index.js`
except that `DG` goes through `dayMap` before entering the outbound
URL, and the inner-parse-failure message adds `또는 네트워크 문제`. -/
def getPharmacyData_v1 (serviceKey Q0 Q1 DG : Option String)
    (upstream : AxiosOutcome) : HandlerResult1 :=
  if !struthy serviceKey then
    ⟨⟨500, msgBody "서버 설정 오류: API 키가 누락되었습니다."⟩, false, none⟩
  else if !struthy Q0 || !struthy Q1 || !struthy DG then
    ⟨⟨400, msgBody "필수 검색 조건(시/도, 시/군/구, 요일)이 누락되었습니다."⟩, false, none⟩
  else
    let dg := mapDG (DG.getD "")
    match upstream with
    | .success parseResult =>
      match parseResult with
      | some jsonData => ⟨⟨200, .arr (normalizeItems jsonData)⟩, true, some dg⟩
      | none =>
        ⟨⟨500, msgBody "데이터를 불러오는 데 실패했습니다."⟩, true, some dg⟩
    | .failure response =>
      ⟨translateError "데이터 처리 중 오류 발생: 잘못된 API 응답 형식 또는 네트워크 문제" response,
        true, some dg⟩

/-! ## Sample inputs -/

/-- A single pharmacy record as `xml2js` parses one `<item>` element. -/
def sampleRecord : JVal :=
  .obj [("dutyName", .str "행복약국"), ("dutyTel1", .str "02-123-4567")]

/-- A successful upstream body holding exactly one `<item>`. -/
def sampleRoot : JVal :=
  .obj [("response", .obj [
    ("header", .obj [("resultCode", .str "00"), ("resultMsg", .str "NORMAL SERVICE.")]),
    ("body", .obj [("items", .obj [("item", sampleRecord)])])])]

/-- A successful upstream body with an empty `<items></items>` element:
with `explicitArray: false` it parses to the empty string, so the
`item` path is absent. -/
def emptyItemsRoot : JVal :=
  .obj [("response", .obj [
    ("header", .obj [("resultCode", .str "00"), ("resultMsg", .str "NORMAL SERVICE.")]),
    ("body", .obj [("items", .str "")])])]

/-- A successful upstream body with an empty `<item></item>` element:
the `item` path is present but parses to the empty string, a falsy
JavaScript value. -/
def emptyItemRoot : JVal :=
  .obj [("response", .obj [
    ("header", .obj [("resultCode", .str "00"), ("resultMsg", .str "NORMAL SERVICE.")]),
    ("body", .obj [("items", .obj [("item", .str "")])])])]

/-- An upstream error body carrying a `resultMsg`. -/
def errRoot : JVal :=
  .obj [("response", .obj [("header", .obj [
    ("resultCode", .str "30"),
    ("resultMsg", .str "SERVICE KEY IS NOT REGISTERED ERROR.")])])]

/-! ## Helper lemmas -/

lemma normalizeItems_of_extract_truthy {root items : JVal}
    (h : extractItems root = some items) (ht : items.truthy = true) :
    normalizeItems root = toPharmacyList items := by
  unfold normalizeItems
  rw [h]
  simp [ht]

lemma normalizeItems_of_extract_none {root : JVal}
    (h : extractItems root = none) : normalizeItems root = [] := by
  unfold normalizeItems
  rw [h]

lemma normalizeItems_of_extract_falsy {root items : JVal}
    (h : extractItems root = some items) (ht : items.truthy = false) :
    normalizeItems root = [] := by
  unfold normalizeItems
  rw [h]
  simp [ht]

lemma getPharmacyData_valid {serviceKey Q0 Q1 DG : Option String}
    (upstream : AxiosOutcome)
    (hkey : struthy serviceKey = true) (hq0 : struthy Q0 = true)
    (hq1 : struthy Q1 = true) (hdg : struthy DG = true) :
    getPharmacyData serviceKey Q0 Q1 DG upstream =
      match upstream with
      | .success (some jsonData) => ⟨⟨200, .arr (normalizeItems jsonData)⟩, true⟩
      | .success none => ⟨⟨500, msgBody "데이터를 불러오는 데 실패했습니다."⟩, true⟩
      | .failure response =>
        ⟨translateError "데이터 처리 중 오류 발생: 잘못된 API 응답 형식" response, true⟩ := by
  unfold getPharmacyData
  rw [hkey, hq0, hq1, hdg]
  cases upstream with
  | success p => cases p <;> rfl
  | failure r => rfl

lemma getPharmacyData_v1_valid {serviceKey Q0 Q1 DG : Option String}
    (upstream : AxiosOutcome)
    (hkey : struthy serviceKey = true) (hq0 : struthy Q0 = true)
    (hq1 : struthy Q1 = true) (hdg : struthy DG = true) :
    getPharmacyData_v1 serviceKey Q0 Q1 DG upstream =
      match upstream with
      | .success (some jsonData) =>
        ⟨⟨200, .arr (normalizeItems jsonData)⟩, true, some (mapDG (DG.getD ""))⟩
      | .success none =>
        ⟨⟨500, msgBody "데이터를 불러오는 데 실패했습니다."⟩, true, some (mapDG (DG.getD ""))⟩
      | .failure response =>
        ⟨translateError "데이터 처리 중 오류 발생: 잘못된 API 응답 형식 또는 네트워크 문제" response,
          true, some (mapDG (DG.getD ""))⟩ := by
  unfold getPharmacyData_v1
  rw [hkey, hq0, hq1, hdg]
  cases upstream with
  | success p => cases p <;> rfl
  | failure r => rfl

lemma dayMap_lookup_nonempty {dg code : String}
    (h : dayMap.lookup dg = some code) : code.isEmpty = false := by
  simp only [dayMap, List.lookup] at h
  repeat' split at h
  all_goals (try (cases h))
  all_goals decide

lemma mapDG_of_lookup {dg code : String}
    (h : dayMap.lookup dg = some code) : mapDG dg = code := by
  unfold mapDG dayMapAccess
  rw [h]
  simp [dayMap_lookup_nonempty h]

lemma mapDG_of_lookup_none {dg : String}
    (h : dayMap.lookup dg = none) (hp : protoProps.contains dg = false) :
    mapDG dg = dg := by
  unfold mapDG dayMapAccess
  rw [h, hp]
  simp

lemma mapDG_of_proto {dg : String}
    (h : dayMap.lookup dg = none) (hp : protoProps.contains dg = true) :
    mapDG dg = protoPropString dg := by
  unfold mapDG dayMapAccess
  rw [h, hp]
  simp

lemma translateError_of_resultMsg {errorJson : JVal} {m : String}
    (malformedMsg : String) (status : Nat)
    (hmsg : extractResultMsg errorJson = some (.str m)) (hm : m.isEmpty = false) :
    translateError malformedMsg (some ⟨status, true, some errorJson⟩) =
      ⟨status, msgBody ("API 응답 오류: " ++ m)⟩ := by
  unfold translateError
  simp [hmsg, JVal.truthy, hm, JVal.jsToString]

/-! ## Claims -/

/-- C1: for every successful upstream response whose extracted
`response.body.items.item` value is present (a truthy node), the
`index.js` handler answers 200 with an array body equal to the
normalized list: an array value passes through unchanged (hence
order-preserving, N records to N elements), a non-array node is
wrapped into exactly the one-element array holding that record. -/
theorem C1_present_items_normalized_array
    (serviceKey Q0 Q1 DG : Option String) (root items : JVal)
    (hkey : struthy serviceKey = true) (hq0 : struthy Q0 = true)
    (hq1 : struthy Q1 = true) (hdg : struthy DG = true)
    (hitems : extractItems root = some items) (ht : items.truthy = true) :
    (getPharmacyData serviceKey Q0 Q1 DG (.success (some root))).resp =
      ⟨200, .arr (toPharmacyList items)⟩ ∧
    (∀ elems, items = .arr elems → toPharmacyList items = elems) ∧
    (items.isArray = false → toPharmacyList items = [items]) := by
  refine ⟨?_, ?_, ?_⟩
  · rw [getPharmacyData_valid _ hkey hq0 hq1 hdg]
    simp only [normalizeItems_of_extract_truthy hitems ht]
  · intro elems he
    subst he
    rfl
  · intro hna
    cases items with
    | arr elems => simp [JVal.isArray] at hna
    | str s => rfl
    | obj fields => rfl

/-- Witness for C1 at a concrete single-record upstream body. -/
theorem C1_present_items_normalized_array_witness :
    (getPharmacyData (some "KEY") (some "서울특별시") (some "강남구") (some "월")
      (.success (some sampleRoot))).resp = ⟨200, .arr (toPharmacyList sampleRecord)⟩ ∧
    (∀ elems, sampleRecord = .arr elems → toPharmacyList sampleRecord = elems) ∧
    (sampleRecord.isArray = false → toPharmacyList sampleRecord = [sampleRecord]) :=
  C1_present_items_normalized_array (some "KEY") (some "서울특별시") (some "강남구")
    (some "월") sampleRoot sampleRecord (by decide) (by decide) (by decide) (by decide)
    rfl (by decide)

/-- C2: for every successful upstream response whose
`response.body.items.item` path is absent, the `index.js` handler
answers 200 with the empty JSON array (a success, not an error). -/
theorem C2_absent_items_empty_array
    (serviceKey Q0 Q1 DG : Option String) (root : JVal)
    (hkey : struthy serviceKey = true) (hq0 : struthy Q0 = true)
    (hq1 : struthy Q1 = true) (hdg : struthy DG = true)
    (hitems : extractItems root = none) :
    getPharmacyData serviceKey Q0 Q1 DG (.success (some root)) =
      ⟨⟨200, .arr []⟩, true⟩ := by
  rw [getPharmacyData_valid _ hkey hq0 hq1 hdg]
  simp only [normalizeItems_of_extract_none hitems]

/-- Witness for C2 at a concrete empty-`<items>` upstream body. -/
theorem C2_absent_items_empty_array_witness :
    getPharmacyData (some "KEY") (some "서울특별시") (some "강남구") (some "월")
      (.success (some emptyItemsRoot)) = ⟨⟨200, .arr []⟩, true⟩ :=
  C2_absent_items_empty_array (some "KEY") (some "서울특별시") (some "강남구")
    (some "월") emptyItemsRoot (by decide) (by decide) (by decide) (by decide) rfl

/-- C3 counterexample: in the `part_000` variant a request missing `Q0`
is not rejected with a 400 — the handler substitutes the default
`서울특별시`, performs the outbound call, and answers 200. -/
theorem C3_counterexample_v0_defaults :
    (getPharmacyData_v0 (some "KEY") none (some "강남구") (some "월")
      (.success (.ok sampleRoot))).resp.status = 200 ∧
    (getPharmacyData_v0 (some "KEY") none (some "강남구") (some "월")
      (.success (.ok sampleRoot))).calledUpstream = true ∧
    (getPharmacyData_v0 (some "KEY") none (some "강남구") (some "월")
      (.success (.ok sampleRoot))).outboundUrl =
      some (apiUrl_v0 "KEY" "서울특별시" "강남구" "월") :=
  ⟨rfl, rfl, rfl⟩

/-- C3 (amended): with the credential configured, the `index.js` and
`part_001` handlers answer a request missing any of `Q0`, `Q1`, `DG`
with status 400 and a message body, without reaching the outbound call;
the `part_000` variant instead always proceeds to the outbound call. -/
theorem C3_missing_param_rejected
    (serviceKey Q0 Q1 DG : Option String) (upstream : AxiosOutcome)
    (upstream0 : AxiosOutcome0)
    (hkey : struthy serviceKey = true)
    (hmiss : struthy Q0 = false ∨ struthy Q1 = false ∨ struthy DG = false) :
    getPharmacyData serviceKey Q0 Q1 DG upstream =
      ⟨⟨400, msgBody "필수 검색 조건(시/도, 시/군/구, 요일)이 누락되었습니다."⟩, false⟩ ∧
    getPharmacyData_v1 serviceKey Q0 Q1 DG upstream =
      ⟨⟨400, msgBody "필수 검색 조건(시/도, 시/군/구, 요일)이 누락되었습니다."⟩, false, none⟩ ∧
    (getPharmacyData_v0 serviceKey Q0 Q1 DG upstream0).calledUpstream = true := by
  refine ⟨?_, ?_, ?_⟩
  · unfold getPharmacyData
    rw [hkey]
    rcases hmiss with h | h | h <;> simp [h]
  · unfold getPharmacyData_v1
    rw [hkey]
    rcases hmiss with h | h | h <;> simp [h]
  · unfold getPharmacyData_v0
    rw [hkey]
    cases upstream0 with
    | success p => cases p <;> rfl
    | failure m r => rfl

/-- Witness for C3 (amended) at a concrete request missing `Q0`. -/
theorem C3_missing_param_rejected_witness :
    getPharmacyData (some "KEY") none (some "강남구") (some "월") (.success none) =
      ⟨⟨400, msgBody "필수 검색 조건(시/도, 시/군/구, 요일)이 누락되었습니다."⟩, false⟩ ∧
    getPharmacyData_v1 (some "KEY") none (some "강남구") (some "월") (.success none) =
      ⟨⟨400, msgBody "필수 검색 조건(시/도, 시/군/구, 요일)이 누락되었습니다."⟩, false, none⟩ ∧
    (getPharmacyData_v0 (some "KEY") none (some "강남구") (some "월")
      (.failure "boom" none)).calledUpstream = true :=
  C3_missing_param_rejected (some "KEY") none (some "강남구") (some "월")
    (.success none) (.failure "boom" none) (by decide) (Or.inl rfl)

/-- C4: with no configured credential, every variant answers 500 with
the fixed configuration-error message and never reaches the outbound
call, whatever the query parameters and the would-be upstream
behaviour. -/
theorem C4_missing_credential_500
    (Q0 Q1 DG : Option String) (upstream : AxiosOutcome)
    (upstream0 : AxiosOutcome0) :
    getPharmacyData none Q0 Q1 DG upstream =
      ⟨⟨500, msgBody "서버 설정 오류: API 키가 누락되었습니다."⟩, false⟩ ∧
    getPharmacyData_v0 none Q0 Q1 DG upstream0 =
      ⟨⟨500, msgBody "서버 설정 오류: API 키가 누락되었습니다."⟩, false, none⟩ ∧
    getPharmacyData_v1 none Q0 Q1 DG upstream =
      ⟨⟨500, msgBody "서버 설정 오류: API 키가 누락되었습니다."⟩, false, none⟩ :=
  ⟨rfl, rfl, rfl⟩

/-- C5 counterexample: on an upstream transport failure whose error
body carries `resultMsg = "SERVICE KEY IS NOT REGISTERED ERROR."`, the
`index.js` handler does forward the upstream status (404), but the
message field is the fixed prefix `API 응답 오류: ` concatenated with
the extracted text, so it does not equal the extracted text itself. -/
theorem C5_counterexample_message_prefixed :
    (getPharmacyData (some "KEY") (some "서울특별시") (some "강남구") (some "월")
      (.failure (some ⟨404, true, some errRoot⟩))).resp.status = 404 ∧
    messageOf ((getPharmacyData (some "KEY") (some "서울특별시") (some "강남구") (some "월")
      (.failure (some ⟨404, true, some errRoot⟩))).resp) =
      some (.str "API 응답 오류: SERVICE KEY IS NOT REGISTERED ERROR.") ∧
    extractResultMsg errRoot = some (.str "SERVICE KEY IS NOT REGISTERED ERROR.") ∧
    ("API 응답 오류: SERVICE KEY IS NOT REGISTERED ERROR." : String) ≠
      "SERVICE KEY IS NOT REGISTERED ERROR." := by
  have hvalid : (getPharmacyData (some "KEY") (some "서울특별시") (some "강남구") (some "월")
      (.failure (some ⟨404, true, some errRoot⟩))).resp =
      ⟨404, msgBody ("API 응답 오류: " ++ "SERVICE KEY IS NOT REGISTERED ERROR.")⟩ := by
    rw [getPharmacyData_valid _ (by decide) (by decide) (by decide) (by decide)]
    exact translateError_of_resultMsg "데이터 처리 중 오류 발생: 잘못된 API 응답 형식" 404 rfl
      (by decide)
  refine ⟨?_, ?_, rfl, by decide⟩
  · rw [hvalid]
  · rw [hvalid]
    rfl

/-- C5 (amended): for every upstream transport failure whose attached
error body parses and carries a nonempty string `resultMsg`, the
`index.js` and `part_001` handlers answer with the upstream's own HTTP
status and the message `API 응답 오류: ` followed by the extracted
text. -/
theorem C5_error_status_and_message_forwarded
    (serviceKey Q0 Q1 DG : Option String) (status : Nat) (errorJson : JVal)
    (m : String)
    (hkey : struthy serviceKey = true) (hq0 : struthy Q0 = true)
    (hq1 : struthy Q1 = true) (hdg : struthy DG = true)
    (hmsg : extractResultMsg errorJson = some (.str m))
    (hm : m.isEmpty = false) :
    (getPharmacyData serviceKey Q0 Q1 DG
      (.failure (some ⟨status, true, some errorJson⟩))).resp =
      ⟨status, msgBody ("API 응답 오류: " ++ m)⟩ ∧
    (getPharmacyData_v1 serviceKey Q0 Q1 DG
      (.failure (some ⟨status, true, some errorJson⟩))).resp =
      ⟨status, msgBody ("API 응답 오류: " ++ m)⟩ := by
  constructor
  · rw [getPharmacyData_valid _ hkey hq0 hq1 hdg]
    exact translateError_of_resultMsg "데이터 처리 중 오류 발생: 잘못된 API 응답 형식" status hmsg hm
  · rw [getPharmacyData_v1_valid _ hkey hq0 hq1 hdg]
    exact translateError_of_resultMsg "데이터 처리 중 오류 발생: 잘못된 API 응답 형식 또는 네트워크 문제"
      status hmsg hm

/-- Witness for C5 (amended) at a concrete 404 with a parsed error
body. -/
theorem C5_error_status_and_message_forwarded_witness :
    (getPharmacyData (some "KEY") (some "서울특별시") (some "강남구") (some "월")
      (.failure (some ⟨404, true, some errRoot⟩))).resp =
      ⟨404, msgBody ("API 응답 오류: " ++ "SERVICE KEY IS NOT REGISTERED ERROR.")⟩ ∧
    (getPharmacyData_v1 (some "KEY") (some "서울특별시") (some "강남구") (some "월")
      (.failure (some ⟨404, true, some errRoot⟩))).resp =
      ⟨404, msgBody ("API 응답 오류: " ++ "SERVICE KEY IS NOT REGISTERED ERROR.")⟩ :=
  C5_error_status_and_message_forwarded (some "KEY") (some "서울특별시")
    (some "강남구") (some "월") 404 errRoot "SERVICE KEY IS NOT REGISTERED ERROR."
    (by decide) (by decide) (by decide) (by decide) rfl (by decide)

/-- C6: for every upstream transport failure whose attached (truthy)
error body fails to parse as XML, the `index.js` and `part_001`
handlers return a complete 500 response with their fixed
malformed-upstream-response message — the rejected inner parse is
caught, never an unhandled crash (the embedded handlers are total
functions returning a response on this input). -/
theorem C6_unparseable_error_body_500
    (serviceKey Q0 Q1 DG : Option String) (status : Nat)
    (hkey : struthy serviceKey = true) (hq0 : struthy Q0 = true)
    (hq1 : struthy Q1 = true) (hdg : struthy DG = true) :
    (getPharmacyData serviceKey Q0 Q1 DG
      (.failure (some ⟨status, true, none⟩))).resp =
      ⟨500, msgBody "데이터 처리 중 오류 발생: 잘못된 API 응답 형식"⟩ ∧
    (getPharmacyData_v1 serviceKey Q0 Q1 DG
      (.failure (some ⟨status, true, none⟩))).resp =
      ⟨500, msgBody "데이터 처리 중 오류 발생: 잘못된 API 응답 형식 또는 네트워크 문제"⟩ := by
  constructor
  · rw [getPharmacyData_valid _ hkey hq0 hq1 hdg]
    rfl
  · rw [getPharmacyData_v1_valid _ hkey hq0 hq1 hdg]
    rfl

/-- Witness for C6 at a concrete 404 whose error body does not parse. -/
theorem C6_unparseable_error_body_500_witness :
    (getPharmacyData (some "KEY") (some "서울특별시") (some "강남구") (some "월")
      (.failure (some ⟨404, true, none⟩))).resp =
      ⟨500, msgBody "데이터 처리 중 오류 발생: 잘못된 API 응답 형식"⟩ ∧
    (getPharmacyData_v1 (some "KEY") (some "서울특별시") (some "강남구") (some "월")
      (.failure (some ⟨404, true, none⟩))).resp =
      ⟨500, msgBody "데이터 처리 중 오류 발생: 잘못된 API 응답 형식 또는 네트워크 문제"⟩ :=
  C6_unparseable_error_body_500 (some "KEY") (some "서울특별시") (some "강남구")
    (some "월") 404 (by decide) (by decide) (by decide) (by decide)

/-- C7 counterexample: `constructor` matches none of the 8 entries of
the mapping table, yet `part_001` does not pass it through unchanged:
`dayMap["constructor"]` finds the inherited `Object` constructor, a
truthy value, which wins the `||` and reaches the outbound URL as its
string form instead of the original input. -/
theorem C7_counterexample_proto_key :
    dayMap.lookup "constructor" = none ∧
    (getPharmacyData_v1 (some "KEY") (some "서울특별시") (some "강남구")
      (some "constructor") (.success (some sampleRoot))).outboundDG =
      some "function Object() { [native code] }" ∧
    some "function Object() { [native code] }" ≠ some "constructor" :=
  ⟨rfl, rfl, by decide⟩

/-- C7 (amended): the `part_001` weekday table has exactly 8 own
entries; for every nonempty inbound `DG`, a label with an entry maps to
its code in the outbound call; a label with no entry that names no
`Object.prototype` property passes through unchanged; a label naming an
inherited `Object.prototype` property is replaced by that truthy
inherited value, whose string form — not the original input — becomes
the outbound `DG`. -/
theorem C7_weekday_mapping
    (serviceKey Q0 Q1 : Option String) (dg : String) (upstream : AxiosOutcome)
    (hkey : struthy serviceKey = true) (hq0 : struthy Q0 = true)
    (hq1 : struthy Q1 = true) (hdg : dg.isEmpty = false) :
    dayMap.length = 8 ∧
    (∀ code, dayMap.lookup dg = some code →
      (getPharmacyData_v1 serviceKey Q0 Q1 (some dg) upstream).outboundDG = some code) ∧
    (dayMap.lookup dg = none → protoProps.contains dg = false →
      (getPharmacyData_v1 serviceKey Q0 Q1 (some dg) upstream).outboundDG = some dg) ∧
    (dayMap.lookup dg = none → protoProps.contains dg = true →
      (getPharmacyData_v1 serviceKey Q0 Q1 (some dg) upstream).outboundDG =
        some (protoPropString dg)) := by
  have hDG : struthy (some dg) = true := by simp [struthy, hdg]
  have base : (getPharmacyData_v1 serviceKey Q0 Q1 (some dg) upstream).outboundDG =
      some (mapDG dg) := by
    rw [getPharmacyData_v1_valid _ hkey hq0 hq1 hDG]
    cases upstream with
    | success p => cases p <;> rfl
    | failure r => rfl
  refine ⟨rfl, ?_, ?_, ?_⟩
  · intro code hc
    rw [base, mapDG_of_lookup hc]
  · intro hn hp
    rw [base, mapDG_of_lookup_none hn hp]
  · intro hn hp
    rw [base, mapDG_of_proto hn hp]

/-- Witness for C7 (amended) at the holiday designator. -/
theorem C7_weekday_mapping_witness :
    dayMap.length = 8 ∧
    (∀ code, dayMap.lookup "공휴일" = some code →
      (getPharmacyData_v1 (some "KEY") (some "서울특별시") (some "강남구") (some "공휴일")
        (.success (some sampleRoot))).outboundDG = some code) ∧
    (dayMap.lookup "공휴일" = none → protoProps.contains "공휴일" = false →
      (getPharmacyData_v1 (some "KEY") (some "서울특별시") (some "강남구") (some "공휴일")
        (.success (some sampleRoot))).outboundDG = some "공휴일") ∧
    (dayMap.lookup "공휴일" = none → protoProps.contains "공휴일" = true →
      (getPharmacyData_v1 (some "KEY") (some "서울특별시") (some "강남구") (some "공휴일")
        (.success (some sampleRoot))).outboundDG = some (protoPropString "공휴일")) :=
  C7_weekday_mapping (some "KEY") (some "서울특별시") (some "강남구") "공휴일"
    (.success (some sampleRoot)) (by decide) (by decide) (by decide) (by decide)

/-- C8: the `part_000` variant violates the no-cleartext-credential
rule — at the failing input `PHARMACY_API_KEY = "SECRETKEY123"` (with
defaulted query parameters) its pre-call `Calling API` log line
interpolates the full outbound URL and thus contains the credential in
cleartext, not a mask or a length. -/
theorem C8_credential_logged_in_cleartext :
    logsBeforeCall_v0 (some "SECRETKEY123") none none none =
      ["Calling API: http://apis.data.go.kr/B552657/ErmctInsttInfoInqireService/getParmacyListInfoInqire?serviceKey=SECRETKEY123&Q0=%EC%84%9C%EC%9A%B8%ED%8A%B9%EB%B3%84%EC%8B%9C&Q1=%EA%B0%95%EB%82%A8%EA%B5%AC&DG=%EC%9B%94"] ∧
    ∃ pre post,
      "Calling API: http://apis.data.go.kr/B552657/ErmctInsttInfoInqireService/getParmacyListInfoInqire?serviceKey=SECRETKEY123&Q0=%EC%84%9C%EC%9A%B8%ED%8A%B9%EB%B3%84%EC%8B%9C&Q1=%EA%B0%95%EB%82%A8%EA%B5%AC&DG=%EC%9B%94" =
        pre ++ "SECRETKEY123" ++ post :=
  ⟨rfl,
    "Calling API: http://apis.data.go.kr/B552657/ErmctInsttInfoInqireService/getParmacyListInfoInqire?serviceKey=",
    "&Q0=%EC%84%9C%EC%9A%B8%ED%8A%B9%EB%B3%84%EC%8B%9C&Q1=%EA%B0%95%EB%82%A8%EA%B5%AC&DG=%EC%9B%94",
    rfl⟩

/-- C9: when the credential is missing and required parameters are also
missing, the configuration error wins: the `index.js` and `part_001`
handlers return the 500 configuration response (not the 400 client
error), because the credential check runs first. -/
theorem C9_config_error_precedence
    (Q0 Q1 DG : Option String) (upstream : AxiosOutcome)
    (_hmiss : struthy Q0 = false ∨ struthy Q1 = false ∨ struthy DG = false) :
    getPharmacyData none Q0 Q1 DG upstream =
      ⟨⟨500, msgBody "서버 설정 오류: API 키가 누락되었습니다."⟩, false⟩ ∧
    (getPharmacyData none Q0 Q1 DG upstream).resp.status ≠ 400 ∧
    getPharmacyData_v1 none Q0 Q1 DG upstream =
      ⟨⟨500, msgBody "서버 설정 오류: API 키가 누락되었습니다."⟩, false, none⟩ := by
  refine ⟨rfl, ?_, rfl⟩
  have h5 : (getPharmacyData none Q0 Q1 DG upstream).resp.status = 500 := rfl
  rw [h5]
  decide

/-- Witness for C9 at a request with no credential and no parameters
at all. -/
theorem C9_config_error_precedence_witness :
    getPharmacyData none none none none (.success none) =
      ⟨⟨500, msgBody "서버 설정 오류: API 키가 누락되었습니다."⟩, false⟩ ∧
    (getPharmacyData none none none none (.success none)).resp.status ≠ 400 ∧
    getPharmacyData_v1 none none none none (.success none) =
      ⟨⟨500, msgBody "서버 설정 오류: API 키가 누락되었습니다."⟩, false, none⟩ :=
  C9_config_error_precedence none none none (.success none) (Or.inl rfl)

/-- C10: when the extracted `response.body.items.item` value is present
but falsy (for instance the empty string that an attribute-less parse
of `<item></item>` produces), the `index.js` and `part_000` handlers
take the else branch and answer 200 with the empty array, not a
one-element array. -/
theorem C10_falsy_item_treated_absent
    (serviceKey Q0 Q1 DG : Option String) (root items : JVal)
    (hkey : struthy serviceKey = true) (hq0 : struthy Q0 = true)
    (hq1 : struthy Q1 = true) (hdg : struthy DG = true)
    (hitems : extractItems root = some items) (ht : items.truthy = false) :
    getPharmacyData serviceKey Q0 Q1 DG (.success (some root)) =
      ⟨⟨200, .arr []⟩, true⟩ ∧
    (getPharmacyData_v0 serviceKey Q0 Q1 DG (.success (.ok root))).resp =
      ⟨200, .arr []⟩ := by
  constructor
  · rw [getPharmacyData_valid _ hkey hq0 hq1 hdg]
    simp only [normalizeItems_of_extract_falsy hitems ht]
  · unfold getPharmacyData_v0
    rw [hkey]
    simp [normalizeItems_of_extract_falsy hitems ht]

/-- Witness for C10 at a concrete empty-`<item>` upstream body. -/
theorem C10_falsy_item_treated_absent_witness :
    getPharmacyData (some "KEY") (some "서울특별시") (some "강남구") (some "월")
      (.success (some emptyItemRoot)) = ⟨⟨200, .arr []⟩, true⟩ ∧
    (getPharmacyData_v0 (some "KEY") (some "서울특별시") (some "강남구") (some "월")
      (.success (.ok emptyItemRoot))).resp = ⟨200, .arr []⟩ :=
  C10_falsy_item_treated_absent (some "KEY") (some "서울특별시") (some "강남구")
    (some "월") emptyItemRoot (.str "") (by decide) (by decide) (by decide)
    (by decide) rfl (by decide)
